import Mathlib

/-!
Verification development for the hxcpp dynamic-library guide.

The repository's executable content consists of four tiny pieces of code:

* `Foreign.cpp` — a CFFI foreign function `CPP_ForeignFunction` that reads an
  int out of a hxcpp `value`, prints it, increments it and returns it, and its
  registration `DEFINE_PRIM(CPP_ForeignFunction, 1)`;
* a Haxe client `Main` that loads `CPP_ForeignFunction` from `libforeign`
  with declared arity 1 inside a try/catch and, on success, invokes it with
  the single argument `2`;
* `empty.cpp` — an `extern "C"` wrapper exporting `run_haxe` (bootstraps the
  embedded hxcpp runtime via `hxcpp_set_top_of_stack` + `hxRunLibrary`,
  mapping a null error to status `0` and a non-null error to a printed
  message and status `-1`) and `empty_test` (calls `Empty_obj::test()`
  unconditionally);
* a C client whose `main` performs
  `dlopen → dlsym "run_haxe" → call → dlsym "empty_test" → call → dlclose`
  with no error checks.

The spec generalizes the platform loading facility (`dlopen`/`dlsym`/
`dlclose`), which is not part of the repository, into a Dynamic Module Loader
component; those parts are modelled from the spec and marked as such.  The
four code pieces above are embedded from the source files.
-/

/-! ## Machine integers

C `int` arithmetic in `Foreign.cpp` is 32-bit; the increment is modelled with
an explicit two's-complement wrap. -/

/-- Two's-complement wrap of an integer into the 32-bit signed range. -/
def wrap32 (n : Int) : Int := (n + 2 ^ 31) % 2 ^ 32 - 2 ^ 31

/-! ## Foreign.cpp -/

/-- Embedding of `CPP_ForeignFunction` from `Foreign.cpp`: `val_int` reads the
int payload of the boxed argument, `printf("CPP: intVal = %d\n", intVal)`
emits one line of output, `intVal++` increments with 32-bit semantics, and
`alloc_int` boxes the result.  The returned pair is (boxed result, emitted
output lines).  The embedding is a pure function, so the result of a call is
fully determined by the argument. -/
def CPP_ForeignFunction (haxeVal : Int) : Int × List String :=
  let intVal : Int := haxeVal
  let line : String := "CPP: intVal = " ++ toString intVal ++ "\n"
  let intVal : Int := wrap32 (intVal + 1)
  (intVal, [line])

/-- A `DEFINE_PRIM(name, arity)` registration line from the native side. -/
structure PrimRegistration where
  name : String
  arity : Nat
deriving DecidableEq

/-- Embedding of `DEFINE_PRIM(CPP_ForeignFunction, 1)` from `Foreign.cpp`. -/
def foreignPrimRegistration : PrimRegistration :=
  { name := "CPP_ForeignFunction", arity := 1 }

/-! ## The Haxe client `Main` -/

/-- The arguments of a `cpp.Lib.load(lib, prim, arity)` call on the Haxe
side. -/
structure LibLoadCall where
  lib : String
  prim : String
  arity : Nat
deriving DecidableEq

/-- Embedding of the call
`cpp.Lib.load("libforeign", "CPP_ForeignFunction", 1)` in `Main.new`. -/
def mainLoadCall : LibLoadCall :=
  { lib := "libforeign", prim := "CPP_ForeignFunction", arity := 1 }

/-- The argument list of the single invocation `ForeignFunction(2)` in
`Main.new`. -/
def mainInvocationArgs : List Int := [2]

/-- Observable outcome of one run of `Main.new`: the trace/print log and
whether the foreign function was invoked. -/
structure MainRun where
  log : List String
  invokedForeign : Bool
deriving DecidableEq

/-- Embedding of `Main.new` from the Haxe client.  The outcome of
`cpp.Lib.load` is external (it depends on whether `libforeign.ndll` is
present), so the run is parameterized by it: `Except.error e` models the
`catch` branch being taken, `Except.ok f` models a successful load binding
`ForeignFunction` to `f`.  On failure the client traces a message and
returns without invoking; on success it invokes `f 2` and traces the
result. -/
def Main_new (loadResult : Except String (Int → Int × List String)) : MainRun :=
  let log0 : List String := ["Hello from Main, about to load libforeign library"]
  match loadResult with
  | Except.error _ =>
      { log := log0 ++ ["Failed to load libforeign.ndll!"],
        invokedForeign := false }
  | Except.ok f =>
      let r := f 2
      { log := log0 ++ r.2 ++
          ["Main called ForeignFunction(2), returned " ++ toString r.1],
        invokedForeign := true }

/-! ## empty.cpp -/

/-- State of the embedded hxcpp runtime inside the loaded module.
`topOfStackSet` records that `hxcpp_set_top_of_stack()` has run;
`hxInitialized` records that `hxRunLibrary()` completed successfully (the
one-time runtime bootstrap). -/
structure HxRuntime where
  topOfStackSet : Bool
  hxInitialized : Bool
deriving DecidableEq

/-- Embedding of `run_haxe` from `empty.cpp`.  `hxRunLibrary` is part of the
hxcpp runtime, external to the repository; its outcome is the parameter
`hxRunLibraryErr` (`none` = null error pointer = success, `some err` = error
string).  The function first calls `hxcpp_set_top_of_stack()`, then runs the
library; on error it prints `Error <err>\n` and returns `-1`, otherwise it
returns `0`.  The result is (runtime state, status code, printed lines). -/
def run_haxe (hxRunLibraryErr : Option String) (rt : HxRuntime) :
    HxRuntime × Int × List String :=
  let rt1 : HxRuntime := { rt with topOfStackSet := true }
  match hxRunLibraryErr with
  | some err => (rt1, -1, ["Error " ++ err ++ "\n"])
  | none => ({ rt1 with hxInitialized := true }, 0, [])

/-- Embedding of `empty_test` from `empty.cpp`: it calls `Empty_obj::test()`
unconditionally — there is no check of any initialized flag.
`Empty_obj::test` is hxcpp-generated code outside the repository; its
observable effect is abstracted as one emitted log line. -/
def empty_test (rt : HxRuntime) : HxRuntime × List String :=
  (rt, ["Empty_obj::test"])

/-! ## The Dynamic Module Loader

The loading facility itself (`dlopen`/`dlsym`/`dlclose`) is the host
platform's, not code of this repository; the loader contract below is
modelled from the spec (section 4.1).  The behaviors of the two exported
entry points are taken from `empty.cpp` above; in particular `invoke` calls
a resolved symbol unconditionally, as the raw function-pointer call in the
client does — it performs no initialized-flag check. -/

/-- Modelled from the spec: the `mode` argument of `open`
(eager `NOW` vs deferred `LAZY` symbol resolution). -/
inductive Mode
  | NOW
  | LAZY
deriving DecidableEq

/-- Modelled from the spec: the typed error kinds of the loader
(`LoadError`, `SymbolNotFoundError`, `UnloadError`); `InvalidSymbol` stands
for the spec's unnamed "invalid after release" outcome of using a
`SymbolReference` whose handle is not open. -/
inductive DLError
  | LoadError
  | SymbolNotFoundError
  | UnloadError
  | InvalidSymbol
deriving DecidableEq

/-- Modelled from the spec: the strictly linear per-handle lifecycle
`Unopened → Open → Closed`. -/
inductive HandleState
  | Unopened
  | Open
  | Closed
deriving DecidableEq

/-- A dynamic module, reduced to its export table. -/
structure DLModule where
  exports : List String
deriving DecidableEq

/-- The module built from `empty.cpp`: its `extern "C"` block exports
exactly `run_haxe` and `empty_test`. -/
def libEmpty : DLModule := { exports := ["run_haxe", "empty_test"] }

/-- Modelled from the spec: a resolved, callable entry point bound to a name
within the (single) handle. -/
structure SymbolReference where
  name : String
deriving DecidableEq

/-- Modelled from the spec: the result of invoking a resolved symbol — void
or an integer status. -/
inductive InvocationResult
  | rvoid
  | rint (n : Int)
deriving DecidableEq

/-- Modelled from the spec: the loader's state for its single handle — the
lifecycle position, the loaded module (when open), and the state of the
embedded hxcpp runtime inside that module. -/
structure LoaderState where
  status : HandleState
  module : Option DLModule
  rt : HxRuntime
deriving DecidableEq

/-- The loader state before any operation. -/
def initLoader : LoaderState :=
  { status := HandleState.Unopened, module := none,
    rt := { topOfStackSet := false, hxInitialized := false } }

/-- Modelled from the spec: `open(path, mode)` loads the module at `path`.
The filesystem is the function `fs`; `fs path = none` models a path that
does not refer to an existing, valid module, and yields `LoadError`.  The
lifecycle is strictly linear: opening is only possible from `Unopened`
(no reopen). -/
def openModule (fs : String → Option DLModule) (path : String) (_m : Mode)
    (st : LoaderState) : Except DLError LoaderState :=
  match fs path with
  | none => Except.error DLError.LoadError
  | some mod =>
      if st.status = HandleState.Unopened then
        Except.ok { st with status := HandleState.Open, module := some mod }
      else
        Except.error DLError.LoadError

/-- Modelled from the spec: `resolve(handle, name)` looks up an exported
entry point by exact name on an open handle; a name not in the export table
yields `SymbolNotFoundError` and no reference.  Resolution does not change
the loader state (as `dlsym` does not). -/
def resolve (st : LoaderState) (name : String) : Except DLError SymbolReference :=
  if st.status = HandleState.Open then
    match st.module with
    | none => Except.error DLError.SymbolNotFoundError
    | some mod =>
        if name ∈ mod.exports then
          Except.ok { name := name }
        else
          Except.error DLError.SymbolNotFoundError
  else
    Except.error DLError.SymbolNotFoundError

/-- `invoke(ref)` calls the resolved entry point.  The handle must be open
(after `close` every reference is invalid, per the spec); beyond that the
call is unconditional, exactly as the raw function-pointer call in the C
client: no initialized flag is consulted.  The behaviors of `run_haxe` and
`empty_test` are the embeddings from `empty.cpp`; `hxErr` is the outcome
`hxRunLibrary` would report. -/
def invoke (hxErr : Option String) (st : LoaderState) (ref : SymbolReference) :
    Except DLError (LoaderState × InvocationResult × List String) :=
  if st.status = HandleState.Open then
    match st.module with
    | none => Except.error DLError.InvalidSymbol
    | some mod =>
        if ref.name ∈ mod.exports then
          if ref.name = "run_haxe" then
            let r := run_haxe hxErr st.rt
            Except.ok ({ st with rt := r.1 }, InvocationResult.rint r.2.1, r.2.2)
          else if ref.name = "empty_test" then
            let r := empty_test st.rt
            Except.ok ({ st with rt := r.1 }, InvocationResult.rvoid, r.2)
          else
            Except.ok (st, InvocationResult.rvoid, [])
        else
          Except.error DLError.InvalidSymbol
  else
    Except.error DLError.InvalidSymbol

/-- Modelled from the spec: `close(handle)` releases the module.  Only an
open handle can be closed; closing again (or closing before opening) fails,
so a handle is released at most once. -/
def closeModule (st : LoaderState) : Except DLError LoaderState :=
  if st.status = HandleState.Open then
    Except.ok { st with status := HandleState.Closed }
  else
    Except.error DLError.UnloadError

/-! ## The C client as a program over the loader -/

/-- One operation of the client program. -/
inductive Op
  | op_open (path : String) (m : Mode)
  | op_resolve (name : String)
  | op_invoke (name : String)
  | op_close
deriving DecidableEq

/-- An observable event of a run: which operation ran and whether it
succeeded. -/
inductive Event
  | eOpen (ok : Bool)
  | eResolve (name : String) (ok : Bool)
  | eInvoke (name : String) (ok : Bool)
  | eClose (ok : Bool)
deriving DecidableEq

/-- Run one operation against the loader state, producing the next state and
the emitted event.  The C client checks no results, so a failed operation
leaves the state unchanged and the run continues — faithful to the code. -/
def stepOp (fs : String → Option DLModule) (hxErr : Option String)
    (st : LoaderState) : Op → LoaderState × Event
  | Op.op_open path m =>
      match openModule fs path m st with
      | Except.ok st1 => (st1, Event.eOpen true)
      | Except.error _ => (st, Event.eOpen false)
  | Op.op_resolve name =>
      match resolve st name with
      | Except.ok _ => (st, Event.eResolve name true)
      | Except.error _ => (st, Event.eResolve name false)
  | Op.op_invoke name =>
      match invoke hxErr st { name := name } with
      | Except.ok (st1, _, _) => (st1, Event.eInvoke name true)
      | Except.error _ => (st, Event.eInvoke name false)
  | Op.op_close =>
      match closeModule st with
      | Except.ok st1 => (st1, Event.eClose true)
      | Except.error _ => (st, Event.eClose false)

/-- Run a list of operations, pairing each emitted event with the state
after it. -/
def runOps (fs : String → Option DLModule) (hxErr : Option String) :
    LoaderState → List Op → List (Event × LoaderState)
  | _, [] => []
  | st, op :: rest =>
      let r := stepOp fs hxErr st op
      (r.2, r.1) :: runOps fs hxErr r.1 rest

/-- The client program, statement by statement from the C `main`:
`dlopen("../2-shared/libEmpty.dylib", RTLD_NOW)`, `dlsym(handle, "run_haxe")`,
`init_fn()`, `dlsym(handle, "empty_test")`, `test_fn()`, `dlclose(handle)`. -/
def clientProgram : List Op :=
  [ Op.op_open "../2-shared/libEmpty.dylib" Mode.NOW,
    Op.op_resolve "run_haxe",
    Op.op_invoke "run_haxe",
    Op.op_resolve "empty_test",
    Op.op_invoke "empty_test",
    Op.op_close ]

/-- The filesystem of the guide's scenario: the built library is present at
the path the client opens. -/
def demoFS : String → Option DLModule := fun p =>
  if p = "../2-shared/libEmpty.dylib" then some libEmpty else none

/-- The client run in the guide's success scenario (`hxRunLibrary` reports
no error). -/
def clientRun : List (Event × LoaderState) :=
  runOps demoFS none initLoader clientProgram

/-- The event trace of the client run. -/
def clientTrace : List Event := clientRun.map Prod.fst

/-- The handle lifecycle positions along the client run, starting from the
initial state. -/
def clientStatuses : List HandleState :=
  initLoader.status :: clientRun.map (fun p => p.2.status)

/-! ## Trace predicates -/

/-- Is this event a resolve or an invoke? -/
def resolveOrInvoke : Event → Bool
  | Event.eResolve _ _ => true
  | Event.eInvoke _ _ => true
  | _ => false

/-- Is this event an open? -/
def isOpenEv : Event → Bool
  | Event.eOpen _ => true
  | _ => false

/-- Is this event a close? -/
def isCloseEv : Event → Bool
  | Event.eClose _ => true
  | _ => false

/-- Is this event an invoke? -/
def isInvokeEv : Event → Bool
  | Event.eInvoke _ _ => true
  | _ => false

/-- The events strictly before the first open. -/
def beforeOpen (tr : List Event) : List Event :=
  tr.takeWhile (fun e => !(isOpenEv e))

/-- The events strictly after the first close. -/
def afterClose (tr : List Event) : List Event :=
  (tr.dropWhile (fun e => !(isCloseEv e))).drop 1

/-- One legal transition of the strictly linear lifecycle
`Unopened → Open → Closed` (staying put is legal, going back is not). -/
def statusStepOk : HandleState → HandleState → Bool
  | HandleState.Unopened, HandleState.Unopened => true
  | HandleState.Unopened, HandleState.Open => true
  | HandleState.Open, HandleState.Open => true
  | HandleState.Open, HandleState.Closed => true
  | HandleState.Closed, HandleState.Closed => true
  | _, _ => false

/-- A status sequence is linear when every adjacent pair is a legal
lifecycle transition. -/
def linearLifecycle : List HandleState → Bool
  | [] => true
  | [_] => true
  | a :: b :: rest => statusStepOk a b && linearLifecycle (b :: rest)

/-! ## Concrete states used by witnesses and counterexamples -/

/-- An open handle on `libEmpty` whose runtime has never been bootstrapped
(`run_haxe` not yet invoked). -/
def uninitOpenState : LoaderState :=
  { status := HandleState.Open, module := some libEmpty,
    rt := { topOfStackSet := false, hxInitialized := false } }

/-- An open handle on `libEmpty` after a successful bootstrap. -/
def initOpenState : LoaderState :=
  { status := HandleState.Open, module := some libEmpty,
    rt := { topOfStackSet := true, hxInitialized := true } }

/-- A handle on `libEmpty` that has been released. -/
def closedState : LoaderState :=
  { status := HandleState.Closed, module := some libEmpty,
    rt := { topOfStackSet := true, hxInitialized := true } }

/-! ## Claims -/

/-- C1 counterexample: at the concrete input `2147483647` (the largest
32-bit int) the incremented value wraps to `-2147483648`, which is not
`n + 1`, so "for every int input n it returns n+1" fails as stated. -/
theorem foreign_overflow_counterexample :
    (CPP_ForeignFunction 2147483647).1 = -2147483648 ∧
    (2147483647 : Int) + 1 ≠ -2147483648 := by
  refine ⟨?_, by decide⟩
  show wrap32 (2147483647 + 1) = -2147483648
  unfold wrap32
  decide

/-- C1 (amended): invoking `CPP_ForeignFunction` with input `2` returns `3`,
and for every int input `n` whose successor is representable in a 32-bit int
it returns `n + 1`, together with the single printed line; the embedding is
a pure function, so the same input always yields the same result. -/
theorem foreign_increment (n : Int) (h1 : -2147483648 ≤ n) (h2 : n < 2147483647) :
    (CPP_ForeignFunction n).1 = n + 1 ∧
    (CPP_ForeignFunction 2).1 = 3 ∧
    (CPP_ForeignFunction n).2 = ["CPP: intVal = " ++ toString n ++ "\n"] := by
  refine ⟨?_, by decide, rfl⟩
  show wrap32 (n + 1) = n + 1
  unfold wrap32
  norm_num
  omega

/-- C1 witness: the amended theorem applied at the concrete input `2`. -/
theorem foreign_increment_witness : (CPP_ForeignFunction 2).1 = 2 + 1 :=
  (foreign_increment 2 (by decide) (by decide)).1

/-- C2: the client run is exactly the successful sequence open → resolve
bootstrap → invoke bootstrap → resolve test → invoke test → close; the
bootstrap entry point `run_haxe` is the first symbol resolved and the first
invoked, and no resolve or invoke event occurs before the open or after the
close. -/
theorem client_five_step_sequence :
    clientTrace = [Event.eOpen true, Event.eResolve "run_haxe" true,
      Event.eInvoke "run_haxe" true, Event.eResolve "empty_test" true,
      Event.eInvoke "empty_test" true, Event.eClose true] ∧
    (clientTrace.filter resolveOrInvoke).head? =
      some (Event.eResolve "run_haxe" true) ∧
    (clientTrace.filter isInvokeEv).head? =
      some (Event.eInvoke "run_haxe" true) ∧
    (beforeOpen clientTrace).all (fun e => !(resolveOrInvoke e)) = true ∧
    (afterClose clientTrace).all (fun e => !(resolveOrInvoke e)) = true := by
  decide

/-- C3: `run_haxe` returns status `0` exactly when `hxRunLibrary` reports no
error; on a non-null error string it returns `-1` and the error message is
among the reported output lines, not swallowed. -/
theorem run_haxe_error_reporting (r : Option String) (rt : HxRuntime) :
    ((run_haxe r rt).2.1 = 0 ↔ r = none) ∧
    (∀ e, r = some e →
      (run_haxe r rt).2.1 = -1 ∧
      ("Error " ++ e ++ "\n") ∈ (run_haxe r rt).2.2) := by
  cases r with
  | none => exact ⟨by simp [run_haxe], fun e h => by cases h⟩
  | some err =>
      refine ⟨by simp [run_haxe], fun e h => ?_⟩
      injection h with h1
      subst h1
      exact ⟨rfl, by simp [run_haxe]⟩

/-- C3 witness: the theorem applied at the concrete error outcome
`some "boom"`. -/
theorem run_haxe_error_reporting_witness :
    (run_haxe (some "boom") { topOfStackSet := false, hxInitialized := false }).2.1 = -1 ∧
    ("Error " ++ "boom" ++ "\n") ∈
      (run_haxe (some "boom") { topOfStackSet := false, hxInitialized := false }).2.2 :=
  (run_haxe_error_reporting (some "boom")
    { topOfStackSet := false, hxInitialized := false }).2 "boom" rfl

/-- C4: in the client run the handle is closed exactly once and no invoke
event follows the close; the lifecycle positions along the run are strictly
linear `Unopened → Open → Closed`; and in the loader model a closed handle
admits no invocation, no second close, and no transition back to open. -/
theorem handle_lifecycle :
    (clientTrace.filter isCloseEv).length = 1 ∧
    (afterClose clientTrace).all (fun e => !(isInvokeEv e)) = true ∧
    clientStatuses = [HandleState.Unopened, HandleState.Open, HandleState.Open,
      HandleState.Open, HandleState.Open, HandleState.Open, HandleState.Closed] ∧
    linearLifecycle clientStatuses = true ∧
    (∀ he st r, st.status = HandleState.Closed →
      invoke he st r = Except.error DLError.InvalidSymbol) ∧
    (∀ st, st.status = HandleState.Closed →
      closeModule st = Except.error DLError.UnloadError) ∧
    (∀ fs he st op, st.status = HandleState.Closed →
      (stepOp fs he st op).1.status = HandleState.Closed) := by
  refine ⟨by decide, by decide, by decide, by decide, ?_, ?_, ?_⟩
  · intro he st r h
    simp [invoke, h]
  · intro st h
    simp [closeModule, h]
  · intro fs he st op h
    cases op with
    | op_open path m =>
        cases hfs : fs path with
        | none => simp [stepOp, openModule, hfs, h]
        | some mod => simp [stepOp, openModule, hfs, h]
    | op_resolve name => simp [stepOp, resolve, h]
    | op_invoke name => simp [stepOp, invoke, h]
    | op_close => simp [stepOp, closeModule, h]

/-- C4 witness: the closed-handle clauses applied at the concrete released
state. -/
theorem handle_lifecycle_witness :
    invoke none closedState { name := "run_haxe" } =
      Except.error DLError.InvalidSymbol ∧
    closeModule closedState = Except.error DLError.UnloadError ∧
    (stepOp demoFS none closedState Op.op_close).1.status = HandleState.Closed :=
  ⟨handle_lifecycle.2.2.2.2.1 none closedState { name := "run_haxe" } rfl,
   handle_lifecycle.2.2.2.2.2.1 closedState rfl,
   handle_lifecycle.2.2.2.2.2.2 demoFS none closedState Op.op_close rfl⟩

/-- C5: on an open handle, resolving a name that is not in the module's
export table yields `SymbolNotFoundError` and never a `SymbolReference`. -/
theorem resolve_symbol_not_found (st : LoaderState) (mod : DLModule)
    (name : String) (hopen : st.status = HandleState.Open)
    (hmod : st.module = some mod) (hname : name ∉ mod.exports) :
    resolve st name = Except.error DLError.SymbolNotFoundError ∧
    ∀ r, resolve st name ≠ Except.ok r := by
  have h1 : resolve st name = Except.error DLError.SymbolNotFoundError := by
    simp [resolve, hopen, hmod, hname]
  exact ⟨h1, fun r hr => by rw [h1] at hr; cases hr⟩

/-- C5 witness: resolving a symbol absent from `libEmpty` on a concrete open
handle. -/
theorem resolve_symbol_not_found_witness :
    resolve uninitOpenState "no_such_symbol" =
      Except.error DLError.SymbolNotFoundError :=
  (resolve_symbol_not_found uninitOpenState libEmpty "no_such_symbol"
    rfl rfl (by decide)).1

/-- C6: opening a path the filesystem does not map to a valid module yields
`LoadError` and never a handle, whatever the mode and prior state. -/
theorem open_nonexistent_load_error (fs : String → Option DLModule)
    (path : String) (m : Mode) (st : LoaderState) (h : fs path = none) :
    openModule fs path m st = Except.error DLError.LoadError ∧
    ∀ st1, openModule fs path m st ≠ Except.ok st1 := by
  have h1 : openModule fs path m st = Except.error DLError.LoadError := by
    simp [openModule, h]
  exact ⟨h1, fun st1 hc => by rw [h1] at hc; cases hc⟩

/-- C6 witness: opening a concrete missing path in the guide's filesystem. -/
theorem open_nonexistent_load_error_witness :
    openModule demoFS "missing.dylib" Mode.NOW initLoader =
      Except.error DLError.LoadError :=
  (open_nonexistent_load_error demoFS "missing.dylib" Mode.NOW initLoader
    (by decide)).1

/-- C7: `resolve` is idempotent — resolution leaves the loader state
unchanged, and a second resolve of the same name on the same state yields
the same `SymbolReference`, whose invocation behaves identically. -/
theorem resolve_idempotent (fs : String → Option DLModule) (he : Option String)
    (st : LoaderState) (name : String) (r1 : SymbolReference)
    (h : resolve st name = Except.ok r1) :
    (stepOp fs he st (Op.op_resolve name)).1 = st ∧
    ∀ r2, resolve st name = Except.ok r2 →
      r2 = r1 ∧ invoke he st r2 = invoke he st r1 := by
  refine ⟨by simp [stepOp, h], fun r2 h2 => ?_⟩
  rw [h] at h2
  injection h2 with h3
  exact ⟨h3.symm, by rw [h3]⟩

/-- C7 witness: resolving `run_haxe` on a concrete open handle. -/
theorem resolve_idempotent_witness :
    (stepOp demoFS none initOpenState (Op.op_resolve "run_haxe")).1 =
      initOpenState :=
  (resolve_idempotent demoFS none initOpenState "run_haxe"
    { name := "run_haxe" } rfl).1

/-- C8 counterexample: on a concrete open handle whose runtime was never
bootstrapped (`hxInitialized = false`), invoking the non-bootstrap entry
point `empty_test` succeeds and performs its effect — nothing in the
component checks an initialized flag, so the invocation is not prevented. -/
theorem uninitialized_invoke_not_prevented :
    uninitOpenState.rt.hxInitialized = false ∧
    invoke none uninitOpenState { name := "empty_test" } =
      Except.ok (uninitOpenState, InvocationResult.rvoid, ["Empty_obj::test"]) := by
  exact ⟨rfl, rfl⟩

/-- C8 (amended): `invoke` performs no initialized-flag check — invoking
`empty_test` on any open handle on `libEmpty` succeeds regardless of the
runtime's initialization state; safety comes from caller discipline: in the
client run the bootstrap `run_haxe` is invoked before `empty_test`, and at
the `empty_test` invocation the runtime is already initialized. -/
theorem empty_test_by_caller_discipline (he : Option String) (st : LoaderState)
    (h1 : st.status = HandleState.Open) (h2 : st.module = some libEmpty) :
    invoke he st { name := "empty_test" } =
      Except.ok (st, InvocationResult.rvoid, ["Empty_obj::test"]) ∧
    clientTrace.filter isInvokeEv =
      [Event.eInvoke "run_haxe" true, Event.eInvoke "empty_test" true] ∧
    (clientRun[3]?).map (fun p => p.2.rt.hxInitialized) = some true := by
  refine ⟨?_, by decide, by decide⟩
  obtain ⟨s, mo, rt⟩ := st
  cases h1
  cases h2
  rfl

/-- C8 witness: the amended theorem applied at a concrete initialized open
handle. -/
theorem empty_test_by_caller_discipline_witness :
    invoke none initOpenState { name := "empty_test" } =
      Except.ok (initOpenState, InvocationResult.rvoid, ["Empty_obj::test"]) :=
  (empty_test_by_caller_discipline none initOpenState rfl rfl).1

/-- C9: `Main.new` invokes the foreign function only when the load
succeeded; when `cpp.Lib.load` throws, the client reports the failure in its
log and returns without invoking. -/
theorem main_new_invokes_only_after_load
    (loadResult : Except String (Int → Int × List String)) :
    (∀ e, loadResult = Except.error e →
      (Main_new loadResult).invokedForeign = false ∧
      "Failed to load libforeign.ndll!" ∈ (Main_new loadResult).log) ∧
    ((Main_new loadResult).invokedForeign = true →
      ∃ f, loadResult = Except.ok f) := by
  cases loadResult with
  | error e => exact ⟨fun _ _ => ⟨rfl, by simp [Main_new]⟩, by simp [Main_new]⟩
  | ok f => exact ⟨(fun e h => nomatch h), fun _ => ⟨f, rfl⟩⟩

/-- C9 witness: the theorem applied at a concrete failed load. -/
theorem main_new_invokes_only_after_load_witness :
    (Main_new (Except.error "dlopen failed")).invokedForeign = false ∧
    "Failed to load libforeign.ndll!" ∈
      (Main_new (Except.error "dlopen failed")).log :=
  (main_new_invokes_only_after_load (Except.error "dlopen failed")).1
    "dlopen failed" rfl

/-- C10: the declared arity is consistent across the boundary — the native
`DEFINE_PRIM` registers arity 1, the Haxe load call declares arity 1, the
single invocation passes exactly one argument, and both sides name the same
primitive. -/
theorem arity_consistency :
    foreignPrimRegistration.arity = 1 ∧
    mainLoadCall.arity = foreignPrimRegistration.arity ∧
    mainInvocationArgs.length = mainLoadCall.arity ∧
    mainLoadCall.prim = foreignPrimRegistration.name := by
  decide
